import Mathlib

/-!
Shallow embedding of the RealForestry repository (src/app.py) and of the
Tree Measurement Engine its specification describes, with theorems
settling the frozen claims.

The repository's single source file, src/app.py, contains the database
layer (create_database, add_image), EXIF focal-length extraction inside
main, and external-service glue.  The measurement engine components
(FocalLengthResolver, FrameValidator, DimensionEstimator, pipeline) are
described by the specification but are not present under src/, so they
are modelled from the spec where a claim needs them.
-/

namespace RealForestry

/-! ## Focal-length extraction, embedded from src/app.py line 137

The code is `focal_length = exif_data.get("FocalLength", 0)`: a plain
dictionary lookup with default 0.  An EXIF value may be a number or a
rational pair (PIL returns rationals for FocalLength); the code performs
no parsing and no division. -/

/-- A raw EXIF focal-length value as PIL may deliver it: a plain number
or a rational (numerator, denominator) pair. -/
inductive ExifVal where
  | num (q : ℚ)
  | pair (n d : ℚ)
deriving DecidableEq

/-- Embeds `exif_data.get("FocalLength", 0)` from src/app.py line 137:
absent key gives the default 0, a present value is returned unchanged. -/
def getFocalLength (exif : Option ExifVal) : ExifVal :=
  match exif with
  | none => ExifVal.num 0
  | some v => v

/-- Strict positivity of a raw EXIF value, reading a rational pair as
its quotient. -/
def ExifVal.isPositive : ExifVal → Bool
  | .num q => decide (0 < q)
  | .pair n d => decide (0 < n / d)

/-! ## Database layer, embedded from src/app.py (create_database, add_image)

SQLite effects become explicit state passing.  A table that may or may
not exist is an `Option` over its row list; `CREATE TABLE IF NOT EXISTS`
creates an empty table only when the table is absent; an INSERT that
violates the UNIQUE constraint on Images.file_path raises
sqlite3.IntegrityError and leaves the table untouched. -/

/-- A row of the Trees table (src/app.py lines 18-33); the surrogate
primary key and the timestamp defaults are managed by SQLite. -/
structure TreeRow where
  species : String
  year_of_plantation : Int
  tree_location : String
  height : ℚ
  width : ℚ
  crown_size : ℚ
  stem_bark_code : String
  images : String
  wikipedia_link : String
deriving DecidableEq

/-- A row of the Images table (src/app.py lines 36-47), the five columns
add_image supplies. -/
structure ImageRow where
  collection_date : String
  focal_length : ℚ
  height : Int
  width : Int
  file_path : String
deriving DecidableEq

/-- The database state: each table is absent (`none`) or present with
its rows in insertion order. -/
structure DBState where
  trees : Option (List TreeRow)
  images : Option (List ImageRow)
deriving DecidableEq

/-- Embeds create_database (src/app.py lines 12-50): two
`CREATE TABLE IF NOT EXISTS` statements, each creating an empty table
only when the table does not already exist. -/
def create_database (db : DBState) : DBState :=
  { trees :=
      match db.trees with
      | none => some []
      | some rows => some rows
    images :=
      match db.images with
      | none => some []
      | some rows => some rows }

/-- SQLite errors the embedded code can surface: IntegrityError for a
UNIQUE-constraint violation, OperationalError for a missing table. -/
inductive SqlError where
  | integrityError
  | operationalError
deriving DecidableEq

/-- Embeds add_image (src/app.py lines 53-62): INSERT INTO Images.  The
UNIQUE constraint on file_path makes the insert fail with
IntegrityError when the path is already stored; on failure no state is
produced, so the caller's table is unchanged. -/
def add_image (db : DBState) (row : ImageRow) : Except SqlError DBState :=
  match db.images with
  | none => Except.error SqlError.operationalError
  | some rows =>
      if rows.any (fun r => r.file_path = row.file_path) then
        Except.error SqlError.integrityError
      else
        Except.ok { db with images := some (rows ++ [row]) }

/-! ## Tree Measurement Engine, modelled from the spec

The repository holds no FrameValidator, DimensionEstimator or
measurement pipeline under src/; the spec distills them from prototype
variants.  The definitions below follow the spec's words (sections 3,
4.3, 4.4, 4.5). -/

/-- Modelled from the spec: a BoundingBox (spec section 3), four pixel
coordinates with invariant x_min < x_max and y_min < y_max; the
repository has no such type under src/. -/
structure BoundingBox where
  x_min : ℚ
  y_min : ℚ
  x_max : ℚ
  y_max : ℚ
deriving DecidableEq

/-- Modelled from the spec: CameraParameters (spec section 3) —
focal_length_mm, sensor_width_mm (default 36.0), assumed_distance_mm
(default 5000.0); missing from src/. -/
structure CameraParameters where
  focal_length_mm : ℚ
  sensor_width_mm : ℚ
  assumed_distance_mm : ℚ
deriving DecidableEq

/-- Modelled from the spec: MeasurementResult (spec section 3) —
height_m, width_m, crown_size_m, each rounded to two decimals; missing
from src/. -/
structure MeasurementResult where
  height_m : ℚ
  width_m : ℚ
  crown_size_m : ℚ
deriving DecidableEq

/-- Modelled from the spec: rejection reasons (spec section 6) for the
pipeline's typed failures; missing from src/. -/
inductive RejectionReason where
  | NoDetection
  | NotCentered
  | OutOfFrame
deriving DecidableEq

/-- Modelled from the spec: ValidationVerdict (spec section 3), Accepted
or Rejected with a reason; missing from src/. -/
inductive ValidationVerdict where
  | Accepted
  | Rejected (reason : RejectionReason)
deriving DecidableEq

/-- Rounding to two decimal places over ℚ: round a hundredfold to the
nearest integer and scale back. -/
def round2 (x : ℚ) : ℚ :=
  ((round (100 * x) : ℤ) : ℚ) / 100

/-- Modelled from the spec: the DimensionEstimator's zero-focal-length
guard (spec section 4.4) — substitute 1.0 before dividing; missing from
src/. -/
def focalGuard (f : ℚ) : ℚ :=
  if f = 0 then 1 else f

/-- Modelled from the spec: tree_width_mm of the pinhole formula (spec
section 4.4); missing from src/. -/
def tree_width_mm (bbox : BoundingBox) (camera : CameraParameters) (img_width : ℚ) : ℚ :=
  (bbox.x_max - bbox.x_min) / img_width *
    (camera.sensor_width_mm / focalGuard camera.focal_length_mm) *
    camera.assumed_distance_mm

/-- Modelled from the spec: tree_height_mm of the pinhole formula (spec
section 4.4); missing from src/. -/
def tree_height_mm (bbox : BoundingBox) (camera : CameraParameters) (img_height : ℚ) : ℚ :=
  (bbox.y_max - bbox.y_min) / img_height *
    (camera.sensor_width_mm / focalGuard camera.focal_length_mm) *
    camera.assumed_distance_mm

/-- Modelled from the spec: the DimensionEstimator (spec section 4.4) —
crown_size_mm is tree_width_mm times 0.6; all outputs go to meters and
are rounded to two decimals; missing from src/. -/
def estimate (bbox : BoundingBox) (camera : CameraParameters)
    (img_width img_height : ℚ) : MeasurementResult :=
  { height_m := round2 (tree_height_mm bbox camera img_height / 1000)
    width_m := round2 (tree_width_mm bbox camera img_width / 1000)
    crown_size_m := round2 (tree_width_mm bbox camera img_width * (3 / 5) / 1000) }

/-- Modelled from the spec: the FrameValidator's Margin policy (spec
section 4.3) — accept iff all four normalized margins are at least 0.10,
otherwise reject with NotCentered; missing from src/. -/
def validate_margin (bbox : BoundingBox) (img_width img_height : ℚ) : ValidationVerdict :=
  if 1 / 10 ≤ bbox.x_min / img_width ∧
      1 / 10 ≤ (img_width - bbox.x_max) / img_width ∧
      1 / 10 ≤ bbox.y_min / img_height ∧
      1 / 10 ≤ (img_height - bbox.y_max) / img_height then
    ValidationVerdict.Accepted
  else
    ValidationVerdict.Rejected RejectionReason.NotCentered

/-- Modelled from the spec: the MeasurementPipeline after focal
resolution and detection (spec sections 4.3, 4.5) — a missing box is
Rejected NoDetection, a rejected frame never reaches the estimator;
missing from src/.  The detector's outcome and the two later stages are
the arguments. -/
def run_pipeline (detected : Option BoundingBox)
    (validate : BoundingBox → ValidationVerdict)
    (estimator : BoundingBox → MeasurementResult) :
    Except RejectionReason MeasurementResult :=
  match detected with
  | none => Except.error RejectionReason.NoDetection
  | some bbox =>
      match validate bbox with
      | ValidationVerdict.Accepted => Except.ok (estimator bbox)
      | ValidationVerdict.Rejected r => Except.error r

/-- Scaling a bounding box's coordinates, hence its width and height, by
a factor. -/
def scale_bbox (k : ℚ) (b : BoundingBox) : BoundingBox :=
  BoundingBox.mk (k * b.x_min) (k * b.y_min) (k * b.x_max) (k * b.y_max)

end RealForestry

namespace RealForestry

/-- Claim C1 counterexample: the focal-length resolution step in
src/app.py does not return 50.0 for an absent raw value; it returns the
default 0. -/
theorem getFocalLength_absent_not_fifty :
    getFocalLength none ≠ ExifVal.num 50 := by
  decide

/-- Claim C1 (amended): the resolution step in src/app.py returns the
default 0 when the raw focal length is absent, and returns any present
raw value unchanged — in particular a rational pair is passed through
undivided, and no 50.0 default exists. -/
theorem getFocalLength_amended :
    getFocalLength none = ExifVal.num 0 ∧
    (∀ v : ExifVal, getFocalLength (some v) = v) ∧
    (∀ n d : ℚ, getFocalLength (some (ExifVal.pair n d)) = ExifVal.pair n d) := by
  refine ⟨rfl, fun v => rfl, fun n d => rfl⟩

/-- Claim C8 counterexample: on an absent raw input the resolution step
returns 0, which is not strictly greater than 0, so the claimed
positivity fails. -/
theorem getFocalLength_absent_not_positive :
    (getFocalLength none).isPositive = false := by
  decide

/-- Claim C8 (amended): the resolution step is a total lookup (it never
raises), but its result is strictly positive exactly when a raw value is
present and itself positive; an absent input yields 0. -/
theorem getFocalLength_positivity (raw : Option ExifVal) :
    (getFocalLength raw).isPositive = true ↔
      ∃ v, raw = some v ∧ v.isPositive = true := by
  cases raw with
  | none =>
      simp [getFocalLength, ExifVal.isPositive]
  | some v =>
      simp [getFocalLength]

/-- Claim C9: create_database is idempotent — any number of runs leaves
the same state as one run, and tables that already exist keep exactly
their rows. -/
theorem create_database_idempotent (db : DBState) (n : ℕ) :
    create_database^[n + 1] db = create_database db ∧
    (∀ rows, db.trees = some rows → (create_database db).trees = some rows) ∧
    (∀ rows, db.images = some rows → (create_database db).images = some rows) := by
  have hstep : ∀ d : DBState, create_database (create_database d) = create_database d := by
    intro d
    cases ht : d.trees <;> cases hi : d.images <;>
      simp [create_database, ht, hi]
  refine ⟨?_, ?_, ?_⟩
  · induction n with
    | zero => simp
    | succ m ih =>
        rw [Function.iterate_succ_apply', ih, hstep]
  · intro rows ht
    simp [create_database, ht]
  · intro rows hi
    simp [create_database, hi]

/-- Claim C9 witness: two extra runs on a database whose tables already
hold rows change nothing, and the Trees rows survive the call. -/
theorem create_database_idempotent_witness :
    create_database^[3] (DBState.mk (some []) (some [])) =
      create_database (DBState.mk (some []) (some [])) ∧
    (create_database (DBState.mk (some []) (some []))).trees = some [] :=
  ⟨(create_database_idempotent (DBState.mk (some []) (some [])) 2).1,
   (create_database_idempotent (DBState.mk (some []) (some [])) 2).2.1 [] rfl⟩

/-- Claim C10: with the Images table present, add_image appends exactly
one row when the new file_path matches no stored row, and fails with
IntegrityError — producing no new state, so the stored rows are
unchanged — when the file_path is already present. -/
theorem add_image_unique (db : DBState) (rows : List ImageRow) (row : ImageRow)
    (htable : db.images = some rows) :
    ((∀ r ∈ rows, r.file_path ≠ row.file_path) →
      add_image db row = Except.ok { db with images := some (rows ++ [row]) } ∧
      (rows ++ [row]).length = rows.length + 1) ∧
    ((∃ r ∈ rows, r.file_path = row.file_path) →
      add_image db row = Except.error SqlError.integrityError) := by
  constructor
  · intro hfresh
    have hany : rows.any (fun r => r.file_path = row.file_path) = false := by
      simp only [List.any_eq_false, decide_eq_true_eq]
      exact hfresh
    refine ⟨?_, by simp⟩
    simp [add_image, htable, hany]
  · intro hdup
    have hany : rows.any (fun r => r.file_path = row.file_path) = true := by
      simp only [List.any_eq_true, decide_eq_true_eq]
      exact hdup
    simp [add_image, htable, hany]

/-- Claim C10 witness: on a table holding one concrete row, inserting a
fresh path appends one row and inserting the stored path fails with
IntegrityError. -/
theorem add_image_unique_witness :
    add_image (DBState.mk (some []) (some [ImageRow.mk "2024-01-01" 50 900 500 "images/a.jpg"]))
        (ImageRow.mk "2024-01-02" 50 900 500 "images/b.jpg") =
      Except.ok (DBState.mk (some [])
        (some [ImageRow.mk "2024-01-01" 50 900 500 "images/a.jpg",
               ImageRow.mk "2024-01-02" 50 900 500 "images/b.jpg"])) ∧
    add_image (DBState.mk (some []) (some [ImageRow.mk "2024-01-01" 50 900 500 "images/a.jpg"]))
        (ImageRow.mk "2024-01-03" 50 900 500 "images/a.jpg") =
      Except.error SqlError.integrityError :=
  ⟨((add_image_unique (DBState.mk (some []) (some [ImageRow.mk "2024-01-01" 50 900 500 "images/a.jpg"]))
      [ImageRow.mk "2024-01-01" 50 900 500 "images/a.jpg"]
      (ImageRow.mk "2024-01-02" 50 900 500 "images/b.jpg") rfl).1 (by decide)).1,
   (add_image_unique (DBState.mk (some []) (some [ImageRow.mk "2024-01-01" 50 900 500 "images/a.jpg"]))
      [ImageRow.mk "2024-01-01" 50 900 500 "images/a.jpg"]
      (ImageRow.mk "2024-01-03" 50 900 500 "images/a.jpg") rfl).2
      ⟨ImageRow.mk "2024-01-01" 50 900 500 "images/a.jpg", by simp, rfl⟩⟩

/-- Claim C2: on bbox (50,50,450,800), a 500x900 image, focal length
50mm, sensor width 36mm and assumed distance 5000mm, the estimator
returns width 2.88m, height 3.0m and crown size 1.73m. -/
theorem estimate_concrete_scenario :
    estimate (BoundingBox.mk 50 50 450 800) (CameraParameters.mk 50 36 5000) 500 900 =
      MeasurementResult.mk 3 (288 / 100) (173 / 100) := by
  norm_num [estimate, tree_width_mm, tree_height_mm, round2, focalGuard, round_eq,
    Int.floor_eq_iff]

/-- Claim C3: for a valid bounding box and positive image dimensions,
the Margin policy accepts exactly when all four normalized margins are
at least 0.10, and otherwise rejects with NotCentered. -/
theorem validate_margin_spec (bbox : BoundingBox) (w h : ℚ)
    (hx : bbox.x_min < bbox.x_max) (hy : bbox.y_min < bbox.y_max)
    (hw : 0 < w) (hh : 0 < h) :
    (validate_margin bbox w h = ValidationVerdict.Accepted ↔
      (1 / 10 ≤ bbox.x_min / w ∧ 1 / 10 ≤ (w - bbox.x_max) / w ∧
       1 / 10 ≤ bbox.y_min / h ∧ 1 / 10 ≤ (h - bbox.y_max) / h)) ∧
    (¬ (1 / 10 ≤ bbox.x_min / w ∧ 1 / 10 ≤ (w - bbox.x_max) / w ∧
        1 / 10 ≤ bbox.y_min / h ∧ 1 / 10 ≤ (h - bbox.y_max) / h) →
      validate_margin bbox w h = ValidationVerdict.Rejected RejectionReason.NotCentered) := by
  constructor
  · unfold validate_margin
    split <;> simp_all
  · intro hnot
    unfold validate_margin
    rw [if_neg hnot]

/-- Claim C3 witness: a box with exactly 10% margins on a 100x100 image
is accepted. -/
theorem validate_margin_spec_witness :
    validate_margin (BoundingBox.mk 10 10 90 90) 100 100 = ValidationVerdict.Accepted :=
  (validate_margin_spec (BoundingBox.mk 10 10 90 90) 100 100
      (by norm_num) (by norm_num) (by norm_num) (by norm_num)).1.mpr (by norm_num)

/-- Claim C4: the pipeline evaluates validation before estimation — a
missing detection terminates in Rejected NoDetection for every
estimator, and when the validator rejects a box the run terminates in
that rejection and its outcome is independent of the estimator, which
is therefore never invoked. -/
theorem pipeline_validation_before_estimation
    (validate : BoundingBox → ValidationVerdict)
    (est est' : BoundingBox → MeasurementResult) :
    (run_pipeline none validate est = Except.error RejectionReason.NoDetection) ∧
    (∀ bbox r, validate bbox = ValidationVerdict.Rejected r →
      run_pipeline (some bbox) validate est = Except.error r ∧
      run_pipeline (some bbox) validate est =
        run_pipeline (some bbox) validate est') := by
  refine ⟨rfl, fun bbox r hrej => ?_⟩
  simp [run_pipeline, hrej]

/-- Claim C4 witness: with a validator that rejects a concrete full
frame box as NotCentered, the pipeline with the concrete estimator
terminates in that rejection. -/
theorem pipeline_validation_before_estimation_witness :
    run_pipeline (some (BoundingBox.mk 0 0 500 900))
        (fun b => validate_margin b 500 900)
        (fun b => estimate b (CameraParameters.mk 50 36 5000) 500 900) =
      Except.error RejectionReason.NotCentered :=
  ((pipeline_validation_before_estimation
      (fun b => validate_margin b 500 900)
      (fun b => estimate b (CameraParameters.mk 50 36 5000) 500 900)
      (fun _ => MeasurementResult.mk 0 0 0)).2
    (BoundingBox.mk 0 0 500 900) RejectionReason.NotCentered
    (by norm_num [validate_margin])).1

/-- Two-decimal rounding moves a value by at most half an ulp. -/
lemma abs_round2_sub (x : ℚ) : |round2 x - x| ≤ 1 / 200 := by
  have h := abs_sub_round (100 * x)
  have hx : round2 x - x = (((round (100 * x) : ℤ) : ℚ) - 100 * x) / 100 := by
    unfold round2; ring
  rw [hx, abs_div]
  rw [abs_of_pos (by norm_num : (0 : ℚ) < 100)]
  rw [abs_sub_comm] at h
  linarith

/-- Rounded values of two rationals within 3/1000 of each other differ
by at most one hundredth. -/
lemma round2_close (a b : ℚ) (h : |a - b| ≤ 3 / 1000) :
    |round2 a - round2 b| ≤ 1 / 100 := by
  have ha := abs_sub_round (100 * a)
  have hb := abs_sub_round (100 * b)
  have hab : |100 * a - 100 * b| ≤ 3 / 10 := by
    rw [← mul_sub, abs_mul, abs_of_pos (by norm_num : (0 : ℚ) < 100)]
    linarith
  have hcast : |((round (100 * a) : ℤ) : ℚ) - ((round (100 * b) : ℤ) : ℚ)| ≤ 13 / 10 := by
    have h1 : ((round (100 * a) : ℤ) : ℚ) - ((round (100 * b) : ℤ) : ℚ) =
        (((round (100 * a) : ℤ) : ℚ) - 100 * a) + (100 * a - 100 * b) +
          (100 * b - ((round (100 * b) : ℤ) : ℚ)) := by ring
    calc |((round (100 * a) : ℤ) : ℚ) - ((round (100 * b) : ℤ) : ℚ)|
        ≤ |((round (100 * a) : ℤ) : ℚ) - 100 * a| + |100 * a - 100 * b| +
            |100 * b - ((round (100 * b) : ℤ) : ℚ)| := by
          rw [h1]; exact (abs_add _ _).trans (by gcongr; exact abs_add _ _)
      _ ≤ 13 / 10 := by
          rw [abs_sub_comm ((round (100 * a) : ℤ) : ℚ) (100 * a)]
          linarith
  have hint : |round (100 * a) - round (100 * b)| ≤ 1 := by
    have h2 : ((|round (100 * a) - round (100 * b)| : ℤ) : ℚ) ≤ 13 / 10 := by
      rw [Int.cast_abs, Int.cast_sub]; exact hcast
    have h3 : ((|round (100 * a) - round (100 * b)| : ℤ) : ℚ) < 2 :=
      lt_of_le_of_lt h2 (by norm_num)
    have h4 : |round (100 * a) - round (100 * b)| < 2 := by exact_mod_cast h3
    omega
  have h5 : round2 a - round2 b =
      (((round (100 * a) : ℤ) : ℚ) - ((round (100 * b) : ℤ) : ℚ)) / 100 := by
    unfold round2; ring
  rw [h5, abs_div, abs_of_pos (by norm_num : (0 : ℚ) < 100)]
  have h6 : |((round (100 * a) : ℤ) : ℚ) - ((round (100 * b) : ℤ) : ℚ)| ≤ 1 := by
    have := hint
    have h7 : ((|round (100 * a) - round (100 * b)| : ℤ) : ℚ) ≤ 1 := by
      exact_mod_cast this
    rw [Int.cast_abs, Int.cast_sub] at h7
    exact h7
  linarith

/-- Rounding before or after the 0.6 crown factor changes the
two-decimal result by at most one hundredth. -/
lemma round2_crown (w : ℚ) :
    |round2 (w * (3 / 5)) - round2 (round2 w * (3 / 5))| ≤ 1 / 100 := by
  apply round2_close
  have h := abs_round2_sub w
  have h1 : w * (3 / 5) - round2 w * (3 / 5) = (w - round2 w) * (3 / 5) := by ring
  rw [h1, abs_mul, abs_of_pos (by norm_num : (0 : ℚ) < 3 / 5)]
  rw [abs_sub_comm] at h
  linarith

/-- Claim C5: for every input, the estimator's crown size equals the
two-decimal rounding of width_m times 0.6 within one hundredth, the
rounding tolerance. -/
theorem crown_size_consistent (bbox : BoundingBox) (camera : CameraParameters)
    (img_width img_height : ℚ) :
    |(estimate bbox camera img_width img_height).crown_size_m -
        round2 ((estimate bbox camera img_width img_height).width_m * (3 / 5))| ≤ 1 / 100 := by
  have h : tree_width_mm bbox camera img_width * (3 / 5) / 1000 =
      (tree_width_mm bbox camera img_width / 1000) * (3 / 5) := by ring
  simp only [estimate, h]
  exact round2_crown (tree_width_mm bbox camera img_width / 1000)

/-- Claim C6: the estimator is scale-covariant — scaling the bounding
box and the image dimensions by a common positive factor leaves
height_m and width_m unchanged. -/
theorem estimate_scale_covariant (k : ℚ) (hk : 0 < k) (bbox : BoundingBox)
    (camera : CameraParameters) (img_width img_height : ℚ) :
    (estimate (scale_bbox k bbox) camera (k * img_width) (k * img_height)).width_m =
      (estimate bbox camera img_width img_height).width_m ∧
    (estimate (scale_bbox k bbox) camera (k * img_width) (k * img_height)).height_m =
      (estimate bbox camera img_width img_height).height_m := by
  have hw : (k * bbox.x_max - k * bbox.x_min) / (k * img_width) =
      (bbox.x_max - bbox.x_min) / img_width := by
    rw [← mul_sub, mul_div_mul_left _ _ (ne_of_gt hk)]
  have hh : (k * bbox.y_max - k * bbox.y_min) / (k * img_height) =
      (bbox.y_max - bbox.y_min) / img_height := by
    rw [← mul_sub, mul_div_mul_left _ _ (ne_of_gt hk)]
  constructor <;>
    simp [estimate, tree_width_mm, tree_height_mm, scale_bbox, hw, hh]

/-- Claim C6 witness: doubling the concrete bounding box and the 500x900
image leaves width_m unchanged. -/
theorem estimate_scale_covariant_witness :
    (0 : ℚ) < 2 ∧
    (estimate (scale_bbox 2 (BoundingBox.mk 50 50 450 800))
        (CameraParameters.mk 50 36 5000) (2 * 500) (2 * 900)).width_m =
      (estimate (BoundingBox.mk 50 50 450 800)
        (CameraParameters.mk 50 36 5000) 500 900).width_m :=
  ⟨by norm_num,
   (estimate_scale_covariant 2 (by norm_num) (BoundingBox.mk 50 50 450 800)
      (CameraParameters.mk 50 36 5000) 500 900).1⟩

/-- Claim C7: calling the estimator with focal length 0 yields exactly
the result of calling it with focal length 1, for every bounding box,
image size, sensor width and distance; the guard substitutes 1 before
any division, so no division by zero occurs. -/
theorem estimate_zero_focal (bbox : BoundingBox) (sensor dist img_width img_height : ℚ) :
    estimate bbox (CameraParameters.mk 0 sensor dist) img_width img_height =
      estimate bbox (CameraParameters.mk 1 sensor dist) img_width img_height := by
  simp [estimate, tree_width_mm, tree_height_mm, focalGuard]

end RealForestry
